import Mathlib

/-!
Verification of the certbot Vault installer plugin (`certbot_vault/plugin.py`).

The development shallowly embeds the plugin's logic:

* configuration options (`Config`) with Python truthiness (`truthy`),
* the authentication steps performed by `VaultInstaller.__init__`
  (`initAuthActions`),
* TLS session construction (`buildSession`, modelling
  `get_session_for_server_name` and the `SNIAdapter`),
* ASN.1 time parsing and the naive `datetime.strptime(...).timestamp()`
  conversion (`parseAsn1Z`, `pyNaiveTimestamp`),
* Subject Alternative Name extraction (`codeDomains`),
* payload assembly and the deploy flow (`mkPayload`, `deployCert`,
  `prepare`, `prepareThenDeploy`).

External library behaviour (pyOpenSSL certificate accessors, `hvac`
client calls, the filesystem) is represented by explicit data:
certificates are records of the fields the plugin reads, the
filesystem is a partial map from paths to contents, and network calls
are recorded as actions/events rather than performed.
-/

deriving instance DecidableEq for Except

namespace CertbotVault

/-- Configuration options of the plugin, as returned by `self.conf(...)`:
each is either a string or `None` (absent). Mirrors the options declared in
`add_parser_arguments`. -/
structure Config where
  authPath : Option String := none
  token : Option String := none
  roleId : Option String := none
  secretId : Option String := none
  jwtRole : Option String := none
  jwtKey : Option String := none
  addr : Option String := none
  tlsServerName : Option String := none
  tlsCacert : Option String := none
  mount : Option String := none
  path : Option String := none
deriving DecidableEq

/-- Python truthiness of an optional string option: `None` and the empty
string are falsy, any other string is truthy (`if self.conf(...):`). -/
def truthy : Option String → Bool
  | none => false
  | some s => !(s == "")

/-- An authentication step performed against the Vault client during
`VaultInstaller.__init__`: a direct token assignment, an approle login
round-trip, or a JWT login round-trip. -/
inductive AuthAction
  | setToken (token : String)
  | approleLogin (roleId secretId mountPoint : String)
  | jwtLogin (role key : String) (path : Option String)
deriving DecidableEq

/-- The authentication steps of `VaultInstaller.__init__` (plugin.py lines
91-107), in program order: `if self.conf('token'): ...` sets the token;
then, independently, `if self.conf('role-id') and self.conf('secret-id'):`
performs an approle login with mount point `self.conf('auth-path') or
'approle'`; then, independently, `if self.conf('jwt-role') and
self.conf('jwt-key'):` performs a JWT login with `path=self.conf('auth-path')`.
The three `if` statements are not chained with `elif`. -/
def initAuthActions (c : Config) : List AuthAction :=
  (if truthy c.token then [AuthAction.setToken (c.token.getD "")] else [])
    ++ (if truthy c.roleId && truthy c.secretId then
          [AuthAction.approleLogin (c.roleId.getD "") (c.secretId.getD "")
            (if truthy c.authPath then c.authPath.getD "" else "approle")]
        else [])
    ++ (if truthy c.jwtRole && truthy c.jwtKey then
          [AuthAction.jwtLogin (c.jwtRole.getD "") (c.jwtKey.getD "") c.authPath]
        else [])

/-- Does an action perform an approle login exchange? -/
def isApproleLogin : AuthAction → Bool
  | AuthAction.approleLogin _ _ _ => true
  | _ => false

/-- An outbound HTTP session: either a plain `requests.Session()` (system
trust roots, hostname taken from the URL), or a session whose `https://`
adapter is an `SNIAdapter` carrying a server-name override and an optional
CA bundle path (`init_poolmanager` sets `server_hostname`, and `ca_certs`
only when a bundle was given). -/
inductive Session
  | default
  | sni (serverName : String) (caCerts : Option String)
deriving DecidableEq

/-- Model of `get_session_for_server_name(name, ca_certs)`: a session with
an `SNIAdapter(name, ca_certs)` mounted for `https://`. -/
def getSessionForServerName (name : String) (caCerts : Option String) : Session :=
  Session.sni name caCerts

/-- Session construction in `VaultInstaller.__init__` (plugin.py lines
76-89): the CA bundle path is taken from `tls-cacert`; then
`get_session_for_server_name` is used only when `tls-server-name` is
truthy, otherwise a plain `requests.Session()` is built and the CA bundle
variable is never used. -/
def buildSession (c : Config) : Session :=
  let caCerts := if truthy c.tlsCacert then some (c.tlsCacert.getD "") else none
  if truthy c.tlsServerName then
    getSessionForServerName (c.tlsServerName.getD "") caCerts
  else
    Session.default

/-- The custom CA bundle a session's TLS validation trusts instead of the
system roots: `none` means system trust.  A plain session keeps system
trust; an SNI session with `ca_certs` set trusts only that bundle. -/
def sessionCaBundle : Session → Option String
  | Session.default => none
  | Session.sni _ ca => ca

/-- A broken-down datetime, as produced by `datetime.strptime` with format
`"%Y%m%d%H%M%SZ"`. -/
structure DT where
  year : Nat
  month : Nat
  day : Nat
  hour : Nat
  minute : Nat
  second : Nat
deriving DecidableEq

/-- Gregorian leap-year test. -/
def isLeap (y : Nat) : Bool := (y % 4 == 0 && y % 100 != 0) || y % 400 == 0

/-- Number of days in a month of a given year. -/
def daysInMonth (y m : Nat) : Nat :=
  if m = 2 then (if isLeap y then 29 else 28)
  else if m = 4 ∨ m = 6 ∨ m = 9 ∨ m = 11 then 30
  else 31

/-- Decimal value of a list of digit characters. -/
def digitsToNat (cs : List Char) : Nat :=
  cs.foldl (fun n c => n * 10 + (c.toNat - 48)) 0

/-- Model of `datetime.strptime(s, "%Y%m%d%H%M%SZ")` applied to the ASN.1
GeneralizedTime strings returned by pyOpenSSL's `get_notBefore` /
`get_notAfter` (always `YYYYMMDDHHMMSSZ`, 15 characters): fourteen digits
followed by a literal `Z`, with the datetime constructor's range checks
(year at least 1, month 1-12, day within the month, hour at most 23,
minute and second at most 59).  A failure (`none`) corresponds to the
`ValueError` raised by `strptime`. -/
def parseAsn1Z (s : String) : Option DT :=
  let cs := s.data
  if (cs.length == 15) && (cs.take 14).all Char.isDigit && (cs.drop 14 == ['Z']) then
    let y := digitsToNat (cs.take 4)
    let mo := digitsToNat ((cs.drop 4).take 2)
    let d := digitsToNat ((cs.drop 6).take 2)
    let h := digitsToNat ((cs.drop 8).take 2)
    let mi := digitsToNat ((cs.drop 10).take 2)
    let sec := digitsToNat ((cs.drop 12).take 2)
    if 1 ≤ y ∧ 1 ≤ mo ∧ mo ≤ 12 ∧ 1 ≤ d ∧ d ≤ daysInMonth y mo ∧
        h ≤ 23 ∧ mi ≤ 59 ∧ sec ≤ 59 then
      some ⟨y, mo, d, h, mi, sec⟩
    else none
  else none

/-- Days from 1970-01-01 to the given Gregorian calendar date (standard
civil day-count; meaningful for `1 ≤ y`, which `parseAsn1Z` guarantees). -/
def daysFromCivil (y m d : Nat) : Int :=
  let y' := if m ≤ 2 then y - 1 else y
  let era := y' / 400
  let yoe := y' % 400
  let mp := (m + 9) % 12
  let doy := (153 * mp + 2) / 5 + d - 1
  let doe := yoe * 365 + yoe / 4 - yoe / 100 + doy
  ((era * 146097 + doe : Nat) : Int) - 719468

/-- Unix epoch seconds of a broken-down datetime read as an absolute UTC
instant.  This is the conversion the specification prescribes for the
certificate's notBefore/notAfter values. -/
def epochUTC (dt : DT) : Int :=
  daysFromCivil dt.year dt.month dt.day * 86400
    + ((dt.hour * 3600 + dt.minute * 60 + dt.second : Nat) : Int)

/-- Model of `int(datetime.strptime(...).timestamp())` on the naive
datetime produced by `strptime`: Python interprets a naive datetime in the
process's local timezone, so with the local zone at a fixed UTC offset of
`off` seconds the result is the UTC epoch of the fields minus `off`
(timezone rules are modelled as a fixed offset; `int()` truncation is
exact since the values are whole seconds). -/
def pyNaiveTimestamp (off : Int) (dt : DT) : Int := epochUTC dt - off

/-- One entry of a Subject Alternative Name extension: a DNS name, or any
other kind of general name rendered by OpenSSL as `tag:value` (for
example `IP Address:192.0.2.1`). -/
inductive GeneralName
  | dns (name : String)
  | other (tag value : String)
deriving DecidableEq

/-- The characters OpenSSL's `GENERAL_NAME_print` emits for one entry of
the extension: `DNS:` followed by the name for a DNS entry, `tag:value`
for any other entry. -/
def renderGN : GeneralName → List Char
  | GeneralName.dns n => "DNS:".data ++ n.data
  | GeneralName.other t v => t.data ++ ':' :: v.data

/-- The string `ext._subjectAltNameString()` returns: the rendered
entries joined with `", "`. -/
def sanStringChars : List GeneralName → List Char
  | [] => []
  | [n] => renderGN n
  | n :: ns => renderGN n ++ ',' :: ' ' :: sanStringChars ns

/-- Model of Python's `str.split(sep)` for a single-character separator:
splits on every occurrence, keeping empty pieces (`"".split(',') == ['']`). -/
def pySplit (sep : Char) : List Char → List (List Char)
  | [] => [[]]
  | c :: cs =>
    let r := pySplit sep cs
    if c = sep then [] :: r
    else
      match r with
      | [] => [[c]]
      | h :: t => (c :: h) :: t

/-- ASCII whitespace recognised by Python's `str.strip()`. -/
def isSpaceChar (c : Char) : Bool :=
  c == ' ' || c == '\t' || c == '\n' || c == '\r' || c == '\x0b' || c == '\x0c'

/-- Model of Python's `str.strip()`: drop whitespace from both ends. -/
def stripChars (l : List Char) : List Char :=
  ((l.dropWhile isSpaceChar).reverse.dropWhile isSpaceChar).reverse

/-- The body of the SAN loop in `deploy_cert` (plugin.py lines 171-173)
applied to one stripped row: `if row.startswith('DNS:'):
domains.append(row[len('DNS:'):])`. -/
def sanRowToDns (row : List Char) : Option String :=
  if "DNS:".data.isPrefixOf row then some (String.mk (row.drop 4)) else none

/-- The SAN extraction of `deploy_cert` applied to the rendered extension
string `sub`: `[x.strip() for x in sub.split(',')]`, then keep the rows
starting with `DNS:` with that tag removed. -/
def codeExtractDomains (sub : List Char) : List String :=
  ((pySplit ',' sub).map stripChars).filterMap sanRowToDns

/-- Model of Python's substring test `needle in hay` on strings. -/
def strContainsSub (hay needle : List Char) : Bool :=
  (List.range (hay.length + 1)).any fun i => needle.isPrefixOf (hay.drop i)

/-- An X.509 extension as the plugin sees it: its short name
(`ext.get_short_name()`) and, for a Subject Alternative Name extension,
its entries in order.  Entries of non-SAN extensions are irrelevant to the
plugin and left empty by convention. -/
structure Extension where
  shortName : String
  names : List GeneralName
deriving DecidableEq

/-- The extension loop of `deploy_cert` (plugin.py lines 165-173) with its
`domains` accumulator: for every extension whose short name contains
`subjectAltName` as a substring (`'subjectAltName' in
str(ext.get_short_name())`; the `b'...'` wrapper `str` adds around the
bytes cannot intersect the needle), append the DNS rows extracted from
the rendered extension string. -/
def codeDomainsLoop (acc : List String) : List Extension → List String
  | [] => acc
  | ext :: rest =>
    codeDomainsLoop
      (if strContainsSub ext.shortName.data "subjectAltName".data then
        acc ++ codeExtractDomains (sanStringChars ext.names)
      else acc)
      rest

/-- The `domains` list built by the extension loop in `deploy_cert`,
starting from the empty accumulator. -/
def codeDomains (exts : List Extension) : List String := codeDomainsLoop [] exts

/-- The DNS name carried by a general name, if it is a DNS entry. -/
def getDns : GeneralName → Option String
  | GeneralName.dns n => some n
  | GeneralName.other _ _ => none

/-- The DNS-type entries of the Subject Alternative Name extension, in
the order they appear in the extension (the specification's description
of what `domains` must contain). -/
def dnsEntries : List Extension → List String
  | [] => []
  | e :: es =>
    (if e.shortName = "subjectAltName" then e.names.filterMap getDns else [])
      ++ dnsEntries es

/-- No character of the list is the given separator. -/
def noComma (l : List Char) : Prop := ∀ c ∈ l, c ≠ ','

/-- Well-formedness of a rendered SAN entry, as real certificates satisfy
it: its rendering contains no comma, carries no surrounding whitespace,
and, for a non-DNS entry, does not begin with the `DNS:` tag.  These are
the conditions under which the plugin's split-and-strip round-trip through
the rendered string is faithful. -/
def wfGN (n : GeneralName) : Prop :=
  noComma (renderGN n) ∧ stripChars (renderGN n) = renderGN n ∧
    (getDns n = none → "DNS:".data.isPrefixOf (renderGN n) = false)

instance (l : List Char) : Decidable (noComma l) :=
  inferInstanceAs (Decidable (∀ c ∈ l, c ≠ ','))

instance (n : GeneralName) : Decidable (wfGN n) :=
  inferInstanceAs (Decidable (_ ∧ _ ∧ _))

/-- The leaf certificate fields `deploy_cert` reads through pyOpenSSL:
serial number (`get_serial_number()`, an arbitrary-precision integer),
the two validity bounds as ASN.1 time strings (`get_notBefore()`,
`get_notAfter()`), and the extension list. -/
structure Cert where
  serialNumber : Nat
  notBefore : String
  notAfter : String
  extensions : List Extension
deriving DecidableEq

/-- The secret payload `deploy_cert` assembles (the `data` dict): the
fixed type tag, the three raw file contents, the serial rendered in
decimal, the two life timestamps, and the optional `domains` list (a key
only present when the extracted list is non-empty: `if domains:
data['domains'] = domains`). -/
structure Payload where
  type : String
  cert : String
  key : String
  chain : String
  serial : String
  lifeIssued : Int
  lifeExpires : Int
  domains : Option (List String)
deriving DecidableEq

/-- The single write `deploy_cert` issues:
`create_or_update_secret(mount_point=self.conf('mount'), path=int_path,
secret=data)`. -/
structure WriteCall where
  mount : Option String
  path : String
  secret : Payload
deriving DecidableEq

/-- Assembly of the `data` dict of `deploy_cert` (plugin.py lines
153-176) from the parsed certificate `oc`, the three file contents, and
the two parsed validity datetimes, with the process-local UTC offset
`off` feeding the naive `.timestamp()` calls. -/
def mkPayload (off : Int) (oc : Cert) (certS keyS chainS : String) (nb na : DT) : Payload :=
  { type := "urn:scheme:type:certificate"
    cert := certS
    key := keyS
    chain := chainS
    serial := Nat.repr oc.serialNumber
    lifeIssued := pyNaiveTimestamp off nb
    lifeExpires := pyNaiveTimestamp off na
    domains :=
      let ds := codeDomains oc.extensions
      if ds.isEmpty then none else some ds }

/-- Does the string start with the given one? (computable character-list
form of `str.startswith`). -/
def strStartsWith (s pre : String) : Bool := pre.data.isPrefixOf s.data

/-- Does the string end with the given one? (computable character-list
form of `str.endswith`). -/
def strEndsWith (s suf : String) : Bool := suf.data.reverse.isPrefixOf s.data.reverse

/-- Model of POSIX `os.path.join(a, b)`: an absolute `b` discards `a`;
otherwise a separator is inserted unless `a` is empty or already ends
with one. -/
def osPathJoin (a b : String) : String :=
  if strStartsWith b "/" then b
  else if a == "" || strEndsWith a "/" then a ++ b
  else a ++ "/" ++ b

/-- The secret path computed by `deploy_cert` (plugin.py lines 178-180):
`int_path = domain`, overridden with `os.path.join(self.conf('path'),
domain)` when the `path` option is truthy. -/
def secretPath (c : Config) (domain : String) : String :=
  if truthy c.path then osPathJoin (c.path.getD "") domain else domain

/-- An observable step of a `deploy_cert` run: a file read
(`open(path).read()`), the certificate parse (`load_certificate`), or the
store write (`create_or_update_secret`). -/
inductive Event
  | readFile (path : String)
  | parseCert
  | writeSecret (w : WriteCall)
deriving DecidableEq

/-- The errors a run can raise: an unreadable file (`OSError` from
`open`), a certificate parse failure (`OpenSSL.crypto.Error`), a
`strptime` failure (`ValueError`), or the `PluginError('Not
authenticated')` of `prepare`. -/
inductive DeployError
  | ioError (path : String)
  | parseError
  | timeParseError
  | notAuthenticated
deriving DecidableEq

/-- The `deploy_cert` flow (plugin.py lines 131-186), in source order:
read the certificate file; parse it; build the `data` dict, whose
evaluation reads the key file, then the fullchain file, then renders the
serial and converts the two validity times; extract the SAN domains;
compute the secret path; issue the write.  `parse` stands for
`OpenSSL.crypto.load_certificate`, `fs` for the filesystem, `off` for the
process-local UTC offset, and the result pairs the event trace with the
outcome.  The `chain_path` argument is accepted but never used. -/
def deployCert (parse : String → Option Cert) (off : Int) (c : Config)
    (fs : String → Option String)
    (domain certPath keyPath chainPath fullchainPath : String) :
    List Event × Except DeployError WriteCall :=
  match fs certPath with
  | none => ([Event.readFile certPath], Except.error (DeployError.ioError certPath))
  | some certS =>
    match parse certS with
    | none => ([Event.readFile certPath, Event.parseCert],
               Except.error DeployError.parseError)
    | some oc =>
      match fs keyPath with
      | none => ([Event.readFile certPath, Event.parseCert, Event.readFile keyPath],
                 Except.error (DeployError.ioError keyPath))
      | some keyS =>
        match fs fullchainPath with
        | none => ([Event.readFile certPath, Event.parseCert, Event.readFile keyPath,
                    Event.readFile fullchainPath],
                   Except.error (DeployError.ioError fullchainPath))
        | some chainS =>
          match parseAsn1Z oc.notBefore, parseAsn1Z oc.notAfter with
          | some nb, some na =>
            let w : WriteCall :=
              ⟨c.mount, secretPath c domain, mkPayload off oc certS keyS chainS nb na⟩
            ([Event.readFile certPath, Event.parseCert, Event.readFile keyPath,
              Event.readFile fullchainPath, Event.writeSecret w],
             Except.ok w)
          | _, _ =>
            ([Event.readFile certPath, Event.parseCert, Event.readFile keyPath,
              Event.readFile fullchainPath],
             Except.error DeployError.timeParseError)

/-- `VaultInstaller.prepare` (plugin.py lines 109-115): raise
`PluginError('Not authenticated')` unless `is_authenticated()` — whose
network answer is the boolean `authed` — reports success. -/
def prepare (authed : Bool) : Except DeployError Unit :=
  if authed then Except.ok () else Except.error DeployError.notAuthenticated

/-- The plugin lifecycle the host framework guarantees: `prepare` runs
before any deployment, and a raised `PluginError` aborts, so no deploy
step executes and no event occurs. -/
def prepareThenDeploy (authed : Bool) (parse : String → Option Cert) (off : Int)
    (c : Config) (fs : String → Option String)
    (domain certPath keyPath chainPath fullchainPath : String) :
    List Event × Except DeployError WriteCall :=
  match prepare authed with
  | Except.error e => ([], Except.error e)
  | Except.ok _ => deployCert parse off c fs domain certPath keyPath chainPath fullchainPath

/-- The `life.issued` value of a successful run's payload. -/
def resultLifeIssued : List Event × Except DeployError WriteCall → Option Int
  | (_, Except.ok w) => some w.secret.lifeIssued
  | _ => none

/-- A configuration with both a static token and an approle credential
pair (and nothing else). -/
def cfgTokenAndApprole : Config :=
  { token := some "s.mytoken", roleId := some "role123", secretId := some "secret456" }

/-- A configuration with a CA bundle configured but no TLS server-name
override. -/
def cfgCacertOnly : Config := { tlsCacert := some "/etc/ssl/vault-ca.pem" }

/-- A deployment configuration: token auth, kv mount `secret`, base path
`certs`. -/
def cfgDeploy : Config := { token := some "tok", mount := some "secret", path := some "certs" }

/-- A configuration with no base path configured. -/
def cfgNoBasePath : Config := { token := some "tok", mount := some "secret" }

/-- A concrete leaf certificate: an 81-bit serial number (2 to the power
80), a three-month validity window in 2024, and a SAN extension holding
two DNS entries around an IP entry. -/
def cert0 : Cert :=
  { serialNumber := 1208925819614629174706176
    notBefore := "20240101000000Z"
    notAfter := "20240401000000Z"
    extensions :=
      [⟨"basicConstraints", []⟩,
       ⟨"subjectAltName",
        [GeneralName.dns "a.example", GeneralName.other "IP Address" "192.0.2.1",
         GeneralName.dns "b.example"]⟩] }

/-- A certificate parser recognising exactly the PEM text `"CERT0PEM"`. -/
def parse0 : String → Option Cert :=
  fun s => if s = "CERT0PEM" then some cert0 else none

/-- A filesystem holding distinct contents for the four lineage files. -/
def fs0 : String → Option String := fun p =>
  if p = "/live/cert.pem" then some "CERT0PEM"
  else if p = "/live/privkey.pem" then some "KEY0PEM"
  else if p = "/live/fullchain.pem" then some "FULL0PEM"
  else if p = "/live/chain.pem" then some "CHAIN0PEM"
  else none

/-- A filesystem where only the certificate file is readable (the key and
fullchain files are unreadable). -/
def fsNoKey : String → Option String := fun p =>
  if p = "/live/cert.pem" then some "CERT0PEM" else none

/-- A filesystem whose certificate file holds unparsable text and whose
key file is unreadable. -/
def fsBadCert : String → Option String := fun p =>
  if p = "/live/cert.pem" then some "NOTAPEM" else none

/-- `fs0` with a different content for the intermediates-only chain
file. -/
def fsAltChain : String → Option String := fun p =>
  if p = "/live/chain.pem" then some "DIFFERENTCHAIN" else fs0 p

/-- Claim C1 (counterexample): with both a static token and an approle
role-id/secret-id pair configured, the constructor does perform an approle
login exchange — the strategies are not exclusive, refuting the claim that
no approle login call is made. -/
theorem auth_token_and_approle_counterexample :
    truthy cfgTokenAndApprole.token = true ∧
    truthy cfgTokenAndApprole.roleId = true ∧
    truthy cfgTokenAndApprole.secretId = true ∧
    (initAuthActions cfgTokenAndApprole).any isApproleLogin = true := by
  decide

/-- Claim C1 (amended): for every configuration in which both a static
token and an approle role-id/secret-id pair are configured, the
constructor sets the token directly AND still performs an approle login
exchange afterwards (against `auth-path`, defaulting to `"approle"`): the
strategies are applied cumulatively in program order, not exclusively. -/
theorem auth_combines_token_and_approle (c : Config)
    (htok : truthy c.token = true)
    (hrole : truthy c.roleId = true)
    (hsec : truthy c.secretId = true) :
    initAuthActions c =
      AuthAction.setToken (c.token.getD "")
        :: AuthAction.approleLogin (c.roleId.getD "") (c.secretId.getD "")
             (if truthy c.authPath then c.authPath.getD "" else "approle")
        :: (if truthy c.jwtRole && truthy c.jwtKey then
              [AuthAction.jwtLogin (c.jwtRole.getD "") (c.jwtKey.getD "") c.authPath]
            else []) := by
  simp [initAuthActions, htok, hrole, hsec]

/-- Claim C1 (witness): the amended theorem evaluated on a concrete
configuration holding both credentials. -/
theorem auth_combines_token_and_approle_witness :
    initAuthActions cfgTokenAndApprole =
      [AuthAction.setToken "s.mytoken",
       AuthAction.approleLogin "role123" "secret456" "approle"] := by
  rw [auth_combines_token_and_approle cfgTokenAndApprole (by decide) (by decide) (by decide)]
  decide

/-- Claim C2: with `tls-cacert` configured but `tls-server-name` absent,
`__init__` constructs a plain default session, so the configured CA bundle
is not applied and the session keeps system trust roots; the bundle only
takes effect when `tls-server-name` is also configured. -/
theorem cacert_ignored_without_server_name :
    buildSession cfgCacertOnly = Session.default ∧
    sessionCaBundle (buildSession cfgCacertOnly) = none ∧
    buildSession { cfgCacertOnly with tlsServerName := some "vault.internal" } =
      Session.sni "vault.internal" (some "/etc/ssl/vault-ca.pem") := by
  decide

/-- Claim C3: the life timestamps are produced by naive strptime plus
`.timestamp()`, which reads the `YYYYMMDDHHMMSSZ` value as a local-time
instant: with the process-local zone at UTC+01:00 (offset 3600 seconds),
a deploy of a certificate with notBefore `20240101000000Z` stores
`life.issued = 1704063600`, while the absolute UTC instant of that string
is `1704067200` — the conversion depends on the local offset rather than
treating the value as UTC. -/
theorem life_timestamps_use_local_offset :
    resultLifeIssued
        (deployCert parse0 3600 cfgDeploy fs0 "example.com" "/live/cert.pem"
          "/live/privkey.pem" "/live/chain.pem" "/live/fullchain.pem") = some 1704063600 ∧
    parseAsn1Z cert0.notBefore = some ⟨2024, 1, 1, 0, 0, 0⟩ ∧
    epochUTC ⟨2024, 1, 1, 0, 0, 0⟩ = 1704067200 ∧
    pyNaiveTimestamp 3600 ⟨2024, 1, 1, 0, 0, 0⟩ ≠ epochUTC ⟨2024, 1, 1, 0, 0, 0⟩ := by
  decide

/-- Claim C4: when the readiness check reports the client as not
authenticated, `prepare` raises the explicit authentication error and the
deploy never runs: the trace is empty (no certificate, key or chain file
is read, and no write occurs) and the outcome is the authentication
error. -/
theorem unauthenticated_prepare_blocks_deploy (parse : String → Option Cert) (off : Int)
    (c : Config) (fs : String → Option String)
    (domain certPath keyPath chainPath fullchainPath : String) :
    prepareThenDeploy false parse off c fs domain certPath keyPath chainPath fullchainPath =
      ([], Except.error DeployError.notAuthenticated) := rfl

/-- Claim C5 (counterexample): on a filesystem whose key file is
unreadable but whose certificate file holds unparsable text, the reported
error is the certificate parse error, not an I/O error — the certificate
is parsed before the key and fullchain files are read, refuting the
claimed ordering. -/
theorem unreadable_key_reports_parse_error :
    fsBadCert "/live/privkey.pem" = none ∧
    (deployCert parse0 0 cfgDeploy fsBadCert "example.com" "/live/cert.pem"
        "/live/privkey.pem" "/live/chain.pem" "/live/fullchain.pem").2 =
      Except.error DeployError.parseError := by
  decide

/-- Claim C5 (amended): an unreadable certificate file aborts the deploy
with an I/O error before any parse and without a write; the certificate
is then parsed before the key and fullchain files are read, so when the
certificate parses, an unreadable key or fullchain file still aborts with
an I/O error naming that file and no write occurs — but the abort happens
after certificate parsing, and a parse failure masks a key-read
failure. -/
theorem read_failure_aborts_without_write (parse : String → Option Cert) (off : Int)
    (c : Config) (fs : String → Option String)
    (domain certPath keyPath chainPath fullchainPath : String) :
    (fs certPath = none →
      deployCert parse off c fs domain certPath keyPath chainPath fullchainPath =
        ([Event.readFile certPath], Except.error (DeployError.ioError certPath))) ∧
    (∀ certS oc, fs certPath = some certS → parse certS = some oc → fs keyPath = none →
      deployCert parse off c fs domain certPath keyPath chainPath fullchainPath =
        ([Event.readFile certPath, Event.parseCert, Event.readFile keyPath],
         Except.error (DeployError.ioError keyPath))) ∧
    (∀ certS oc keyS, fs certPath = some certS → parse certS = some oc →
      fs keyPath = some keyS → fs fullchainPath = none →
      deployCert parse off c fs domain certPath keyPath chainPath fullchainPath =
        ([Event.readFile certPath, Event.parseCert, Event.readFile keyPath,
          Event.readFile fullchainPath],
         Except.error (DeployError.ioError fullchainPath))) := by
  refine ⟨fun h1 => ?_, fun certS oc h1 h2 h3 => ?_, fun certS oc keyS h1 h2 h3 h4 => ?_⟩
  · simp only [deployCert, h1]
  · simp only [deployCert, h1, h2, h3]
  · simp only [deployCert, h1, h2, h3, h4]

/-- Claim C5 (witness): the amended theorem evaluated on a filesystem
whose certificate file is readable and parses but whose key file is
unreadable. -/
theorem read_failure_aborts_without_write_witness :
    deployCert parse0 0 cfgDeploy fsNoKey "example.com" "/live/cert.pem"
        "/live/privkey.pem" "/live/chain.pem" "/live/fullchain.pem" =
      ([Event.readFile "/live/cert.pem", Event.parseCert, Event.readFile "/live/privkey.pem"],
       Except.error (DeployError.ioError "/live/privkey.pem")) :=
  (read_failure_aborts_without_write parse0 0 cfgDeploy fsNoKey "example.com" "/live/cert.pem"
      "/live/privkey.pem" "/live/chain.pem" "/live/fullchain.pem").2.1
    "CERT0PEM" cert0 (by decide) (by decide) (by decide)

/-- Claim C10: `deploy_cert` never consults the `chain_path` argument or
that file's content: two runs agreeing on the configuration, the other
arguments, and the contents of the certificate, key, and fullchain files
produce identical traces and outcomes (in particular the same written
payload and secret path), whatever the two `chain_path` arguments and the
rest of the two filesystems. -/
theorem deploy_ignores_chain_path (parse : String → Option Cert) (off : Int) (c : Config)
    (fs fs' : String → Option String)
    (domain certPath keyPath chainPathA chainPathB fullchainPath : String)
    (hc : fs certPath = fs' certPath) (hk : fs keyPath = fs' keyPath)
    (hf : fs fullchainPath = fs' fullchainPath) :
    deployCert parse off c fs domain certPath keyPath chainPathA fullchainPath =
      deployCert parse off c fs' domain certPath keyPath chainPathB fullchainPath := by
  simp only [deployCert, hc, hk, hf]

/-- Claim C10 (witness): the theorem applied to two filesystems that
differ in the chain file's content, with two different chain paths. -/
theorem deploy_ignores_chain_path_witness :
    deployCert parse0 0 cfgDeploy fs0 "example.com" "/live/cert.pem" "/live/privkey.pem"
        "/live/chain.pem" "/live/fullchain.pem" =
      deployCert parse0 0 cfgDeploy fsAltChain "example.com" "/live/cert.pem"
        "/live/privkey.pem" "/other/renamed-chain.pem" "/live/fullchain.pem" :=
  deploy_ignores_chain_path parse0 0 cfgDeploy fs0 fsAltChain "example.com" "/live/cert.pem"
    "/live/privkey.pem" "/live/chain.pem" "/other/renamed-chain.pem" "/live/fullchain.pem"
    (by decide) (by decide) (by decide)

/-- Claim C7: on a valid triple (readable files, a certificate that
parses, validity bounds that parse with the notBefore instant strictly
before the notAfter instant), the deploy succeeds and its payload's
`serial` is the certificate's serial number rendered as its decimal
string (`str` on the arbitrary-precision integer), and `life.issued` is
strictly less than `life.expires` (both bounds are shifted by the same
local offset, so their strict order is preserved). -/
theorem payload_serial_decimal_and_life_ordered (parse : String → Option Cert) (off : Int)
    (c : Config) (fs : String → Option String)
    (domain certPath keyPath chainPath fullchainPath : String)
    (certS keyS chainS : String) (oc : Cert) (nb na : DT)
    (hc : fs certPath = some certS) (hp : parse certS = some oc)
    (hk : fs keyPath = some keyS) (hf : fs fullchainPath = some chainS)
    (hnb : parseAsn1Z oc.notBefore = some nb) (hna : parseAsn1Z oc.notAfter = some na)
    (hlt : epochUTC nb < epochUTC na) :
    (deployCert parse off c fs domain certPath keyPath chainPath fullchainPath).2 =
      Except.ok ⟨c.mount, secretPath c domain, mkPayload off oc certS keyS chainS nb na⟩ ∧
    (mkPayload off oc certS keyS chainS nb na).serial = Nat.repr oc.serialNumber ∧
    (mkPayload off oc certS keyS chainS nb na).lifeIssued <
      (mkPayload off oc certS keyS chainS nb na).lifeExpires := by
  refine ⟨?_, rfl, ?_⟩
  · simp only [deployCert, hc, hp, hk, hf, hnb, hna]
  · simp only [mkPayload, pyNaiveTimestamp]
    omega

/-- Claim C7 (witness): the theorem evaluated on the concrete fixtures;
the certificate's serial number exceeds 64 bits and its decimal rendering
is the exact decimal string of 2 to the power 80. -/
theorem payload_serial_decimal_and_life_ordered_witness :
    (2 : Nat) ^ 64 < cert0.serialNumber ∧
    Nat.repr cert0.serialNumber = "1208925819614629174706176" ∧
    (deployCert parse0 3600 cfgDeploy fs0 "example.com" "/live/cert.pem" "/live/privkey.pem"
        "/live/chain.pem" "/live/fullchain.pem").2 =
      Except.ok ⟨cfgDeploy.mount, secretPath cfgDeploy "example.com",
        mkPayload 3600 cert0 "CERT0PEM" "KEY0PEM" "FULL0PEM"
          ⟨2024, 1, 1, 0, 0, 0⟩ ⟨2024, 4, 1, 0, 0, 0⟩⟩ ∧
    (mkPayload 3600 cert0 "CERT0PEM" "KEY0PEM" "FULL0PEM"
        ⟨2024, 1, 1, 0, 0, 0⟩ ⟨2024, 4, 1, 0, 0, 0⟩).lifeIssued <
      (mkPayload 3600 cert0 "CERT0PEM" "KEY0PEM" "FULL0PEM"
        ⟨2024, 1, 1, 0, 0, 0⟩ ⟨2024, 4, 1, 0, 0, 0⟩).lifeExpires := by
  have h := payload_serial_decimal_and_life_ordered parse0 3600 cfgDeploy fs0 "example.com"
    "/live/cert.pem" "/live/privkey.pem" "/live/chain.pem" "/live/fullchain.pem"
    "CERT0PEM" "KEY0PEM" "FULL0PEM" cert0 ⟨2024, 1, 1, 0, 0, 0⟩ ⟨2024, 4, 1, 0, 0, 0⟩
    (by decide) (by decide) (by decide) (by decide) (by decide) (by decide) (by decide)
  exact ⟨by decide, by decide, h.1, h.2.2⟩

/-- Claim C8: the secret path is `basePath/domain` when a base path is
configured (truthy, with no trailing slash, and a relative domain, as
certbot domains are), and `domain` alone when it is not; every successful
deploy writes at exactly this path. -/
theorem secret_path_base_concat (c : Config) (domain : String) :
    (∀ bp, c.path = some bp → bp ≠ "" → strEndsWith bp "/" = false →
      strStartsWith domain "/" = false → secretPath c domain = bp ++ "/" ++ domain) ∧
    (truthy c.path = false → secretPath c domain = domain) ∧
    (∀ parse off fs certPath keyPath chainPath fullchainPath w,
      (deployCert parse off c fs domain certPath keyPath chainPath fullchainPath).2 =
        Except.ok w → w.path = secretPath c domain) := by
  refine ⟨fun bp hbp hne hslash hdom => ?_, fun h => ?_, ?_⟩
  · simp [secretPath, truthy, hbp, hne, osPathJoin, hslash, hdom]
  · simp [secretPath, h]
  · intro parse off fs certPath keyPath chainPath fullchainPath w hw
    rcases h1 : fs certPath with _ | certS
    · simp [deployCert, h1] at hw
    rcases h2 : parse certS with _ | oc
    · simp [deployCert, h1, h2] at hw
    rcases h3 : fs keyPath with _ | keyS
    · simp [deployCert, h1, h2, h3] at hw
    rcases h4 : fs fullchainPath with _ | chainS
    · simp [deployCert, h1, h2, h3, h4] at hw
    rcases h5 : parseAsn1Z oc.notBefore with _ | nb
    · simp [deployCert, h1, h2, h3, h4, h5] at hw
    rcases h6 : parseAsn1Z oc.notAfter with _ | na
    · simp [deployCert, h1, h2, h3, h4, h5, h6] at hw
    simp [deployCert, h1, h2, h3, h4, h5, h6] at hw
    simp [← hw]

/-- Claim C8 (witness): base path `certs` with domain `example.com`
yields `certs/example.com`; with no base path the path is the domain
alone. -/
theorem secret_path_base_concat_witness :
    secretPath cfgDeploy "example.com" = "certs/example.com" ∧
    secretPath cfgNoBasePath "example.com" = "example.com" := by
  constructor
  · have h := (secret_path_base_concat cfgDeploy "example.com").1 "certs" rfl
      (by decide) (by decide) (by decide)
    rw [h]
    decide
  · exact (secret_path_base_concat cfgNoBasePath "example.com").2.1 (by decide)

/-- Claim C9: on a successful deploy, the payload's `cert`, `key` and
`chain` fields are the verbatim raw contents of the certificate file, the
key file, and the fullchain file respectively — the `chain` field is
sourced from the fullchain file (`open(fullchain_path).read()`), never
from the intermediates-only `chain_path` file. -/
theorem payload_uses_fullchain_verbatim (parse : String → Option Cert) (off : Int)
    (c : Config) (fs : String → Option String)
    (domain certPath keyPath chainPath fullchainPath : String)
    (certS keyS chainS : String) (oc : Cert) (nb na : DT)
    (hc : fs certPath = some certS) (hp : parse certS = some oc)
    (hk : fs keyPath = some keyS) (hf : fs fullchainPath = some chainS)
    (hnb : parseAsn1Z oc.notBefore = some nb) (hna : parseAsn1Z oc.notAfter = some na) :
    (deployCert parse off c fs domain certPath keyPath chainPath fullchainPath).2 =
      Except.ok ⟨c.mount, secretPath c domain, mkPayload off oc certS keyS chainS nb na⟩ ∧
    (mkPayload off oc certS keyS chainS nb na).cert = certS ∧
    (mkPayload off oc certS keyS chainS nb na).key = keyS ∧
    (mkPayload off oc certS keyS chainS nb na).chain = chainS := by
  refine ⟨?_, rfl, rfl, rfl⟩
  simp only [deployCert, hc, hp, hk, hf, hnb, hna]

/-- Claim C9 (witness): the theorem evaluated on fixtures whose chain
file content (`CHAIN0PEM`) differs from the fullchain content
(`FULL0PEM`): the written `chain` field is the fullchain content. -/
theorem payload_uses_fullchain_verbatim_witness :
    fs0 "/live/chain.pem" = some "CHAIN0PEM" ∧
    (deployCert parse0 0 cfgDeploy fs0 "example.com" "/live/cert.pem" "/live/privkey.pem"
        "/live/chain.pem" "/live/fullchain.pem").2 =
      Except.ok ⟨cfgDeploy.mount, secretPath cfgDeploy "example.com",
        mkPayload 0 cert0 "CERT0PEM" "KEY0PEM" "FULL0PEM"
          ⟨2024, 1, 1, 0, 0, 0⟩ ⟨2024, 4, 1, 0, 0, 0⟩⟩ ∧
    (mkPayload 0 cert0 "CERT0PEM" "KEY0PEM" "FULL0PEM"
        ⟨2024, 1, 1, 0, 0, 0⟩ ⟨2024, 4, 1, 0, 0, 0⟩).chain = "FULL0PEM" ∧
    "FULL0PEM" ≠ "CHAIN0PEM" := by
  have h := payload_uses_fullchain_verbatim parse0 0 cfgDeploy fs0 "example.com"
    "/live/cert.pem" "/live/privkey.pem" "/live/chain.pem" "/live/fullchain.pem"
    "CERT0PEM" "KEY0PEM" "FULL0PEM" cert0 ⟨2024, 1, 1, 0, 0, 0⟩ ⟨2024, 4, 1, 0, 0, 0⟩
    (by decide) (by decide) (by decide) (by decide) (by decide) (by decide)
  exact ⟨by decide, h.1, h.2.2.2, by decide⟩

/-- `pySplit` never returns the empty list of pieces. -/
theorem pySplit_ne_nil (sep : Char) : ∀ l : List Char, pySplit sep l ≠ []
  | [] => by simp [pySplit]
  | c :: cs => by
    simp only [pySplit]
    split
    · simp
    · split <;> simp

/-- Splitting a separator-free list yields that single piece. -/
theorem pySplit_noSep (sep : Char) (a : List Char) (ha : ∀ c ∈ a, c ≠ sep) :
    pySplit sep a = [a] := by
  induction a with
  | nil => rfl
  | cons c a' ih =>
    have hc : c ≠ sep := ha c (by simp)
    have ih' := ih fun x hx => ha x (by simp [hx])
    simp [pySplit, hc, ih']

/-- Splitting after a separator-free block: the block becomes the first
piece and the rest splits independently. -/
theorem pySplit_append_noSep (sep : Char) (a b : List Char) (ha : ∀ c ∈ a, c ≠ sep) :
    pySplit sep (a ++ sep :: b) = a :: pySplit sep b := by
  induction a with
  | nil => simp [pySplit]
  | cons c a' ih =>
    have hc : c ≠ sep := ha c (by simp)
    have ih' := ih fun x hx => ha x (by simp [hx])
    simp [pySplit, hc, ih']

/-- Stripping ignores a leading blank. -/
theorem stripChars_space_cons (l : List Char) : stripChars (' ' :: l) = stripChars l := rfl

/-- A list is a prefix of itself followed by anything. -/
theorem isPrefixOf_append_self : ∀ a b : List Char, a.isPrefixOf (a ++ b) = true
  | [], b => by simp [List.isPrefixOf]
  | c :: cs, b => by simp [List.isPrefixOf, isPrefixOf_append_self cs b]

/-- On the rendering of a well-formed SAN entry, the plugin's DNS-row
test recovers exactly the entry's DNS name (or drops a non-DNS entry). -/
theorem sanRowToDns_render (n : GeneralName) (h : wfGN n) :
    sanRowToDns (renderGN n) = getDns n := by
  cases n with
  | dns m =>
    have h1 : "DNS:".data.isPrefixOf ("DNS:".data ++ m.data) = true :=
      isPrefixOf_append_self _ _
    have h2 : ("DNS:".data ++ m.data).drop 4 = m.data :=
      List.drop_left "DNS:".data m.data
    simp [sanRowToDns, renderGN, h1, h2, getDns]
  | other t v =>
    have h3 := h.2.2 rfl
    simp only [renderGN] at h3
    simp [sanRowToDns, renderGN, getDns, h3]

/-- The mapped-and-stripped pieces of a split are unchanged by a leading
blank before the split input. -/
theorem pySplit_space_strip (l : List Char) :
    (pySplit ',' (' ' :: l)).map stripChars = (pySplit ',' l).map stripChars := by
  cases hps : pySplit ',' l with
  | nil => exact absurd hps (pySplit_ne_nil ',' l)
  | cons a b =>
    have hne : ¬(' ' = ',') := by decide
    simp only [pySplit, if_neg hne, hps, List.map_cons, stripChars_space_cons]

/-- The plugin's split-strip-filter extraction of the rendered extension
string recovers exactly the DNS entries of the extension, in order, when
every entry is well-formed. -/
theorem codeExtract_sanString (ns : List GeneralName) (h : ∀ n ∈ ns, wfGN n) :
    codeExtractDomains (sanStringChars ns) = ns.filterMap getDns := by
  induction ns with
  | nil => rfl
  | cons n ns ih =>
    have hw := h n (by simp)
    cases ns with
    | nil =>
      show codeExtractDomains (renderGN n) = _
      unfold codeExtractDomains
      rw [pySplit_noSep ',' _ hw.1, List.map_singleton, hw.2.1, List.filterMap_cons,
        List.filterMap_cons, sanRowToDns_render n hw]
      cases getDns n <;> rfl
    | cons m ms =>
      have ih' := ih fun x hx => h x (by simp [hx])
      have ih2 : ((pySplit ',' (sanStringChars (m :: ms))).map stripChars).filterMap
          sanRowToDns = (m :: ms).filterMap getDns := ih'
      show codeExtractDomains (renderGN n ++ ',' :: ' ' :: sanStringChars (m :: ms)) = _
      unfold codeExtractDomains
      rw [pySplit_append_noSep ',' _ _ hw.1, List.map_cons, pySplit_space_strip,
        hw.2.1, List.filterMap_cons, sanRowToDns_render n hw, ih2]
      rfl

/-- The extension loop appends, to its accumulator, exactly the DNS
entries of the SAN extensions, provided the substring test on short names
recognises exactly the SAN extensions and the SAN entries are
well-formed. -/
theorem codeDomainsLoop_eq (exts : List Extension)
    (h1 : ∀ e ∈ exts, strContainsSub e.shortName.data "subjectAltName".data =
      (e.shortName == "subjectAltName"))
    (h2 : ∀ e ∈ exts, e.shortName = "subjectAltName" → ∀ n ∈ e.names, wfGN n) :
    ∀ acc, codeDomainsLoop acc exts = acc ++ dnsEntries exts := by
  induction exts with
  | nil => intro acc; simp [codeDomainsLoop, dnsEntries]
  | cons e es ih =>
    intro acc
    have h1e := h1 e (by simp)
    have ih' := ih (fun x hx => h1 x (by simp [hx])) (fun x hx => h2 x (by simp [hx]))
    by_cases he : e.shortName = "subjectAltName"
    · have hsan : strContainsSub e.shortName.data "subjectAltName".data = true := by
        rw [h1e, he]; simp
      rw [codeDomainsLoop, if_pos hsan, ih',
        codeExtract_sanString e.names (h2 e (by simp) he), dnsEntries, if_pos he,
        List.append_assoc]
    · have hsan : strContainsSub e.shortName.data "subjectAltName".data = false := by
        rw [h1e]; simpa using he
      rw [codeDomainsLoop, if_neg (by simp [hsan]), ih', dnsEntries, if_neg he,
        List.nil_append]

/-- Claim C6: the payload's `domains` field is exactly the DNS-type
entries of the Subject Alternative Name extension in extension order when
there is at least one, and is absent from the payload entirely when the
SAN extension is missing or has no DNS entries — under the (real-world)
assumptions that the substring test on extension short names recognises
exactly the SAN extensions and that the rendered SAN entries carry no
commas or surrounding whitespace and no non-DNS entry renders with a
`DNS:` tag. -/
theorem payload_domains_eq_san_dns_entries (off : Int) (oc : Cert)
    (certS keyS chainS : String) (nb na : DT)
    (h1 : ∀ e ∈ oc.extensions, strContainsSub e.shortName.data "subjectAltName".data =
      (e.shortName == "subjectAltName"))
    (h2 : ∀ e ∈ oc.extensions, e.shortName = "subjectAltName" → ∀ n ∈ e.names, wfGN n) :
    (mkPayload off oc certS keyS chainS nb na).domains =
      (if dnsEntries oc.extensions = [] then none else some (dnsEntries oc.extensions)) := by
  have hd : codeDomains oc.extensions = dnsEntries oc.extensions := by
    simpa [codeDomains] using codeDomainsLoop_eq oc.extensions h1 h2 []
  cases hD : dnsEntries oc.extensions with
  | nil => simp [mkPayload, hd, hD]
  | cons a b => simp [mkPayload, hd, hD]

/-- Claim C6 (witness): the theorem evaluated on the concrete certificate
whose SAN extension holds `DNS:a.example, IP Address:192.0.2.1,
DNS:b.example`: the payload's domains are exactly the two DNS entries in
order, the IP entry excluded. -/
theorem payload_domains_eq_san_dns_entries_witness :
    (mkPayload 0 cert0 "CERT0PEM" "KEY0PEM" "FULL0PEM"
        ⟨2024, 1, 1, 0, 0, 0⟩ ⟨2024, 4, 1, 0, 0, 0⟩).domains =
      some ["a.example", "b.example"] := by
  rw [payload_domains_eq_san_dns_entries 0 cert0 "CERT0PEM" "KEY0PEM" "FULL0PEM"
    ⟨2024, 1, 1, 0, 0, 0⟩ ⟨2024, 4, 1, 0, 0, 0⟩ (by decide) (by decide)]
  decide

end CertbotVault
